import Mathlib

/-!
Verification of the auth/session lifecycle and the content-creation page of
the insight-weave-cms client, via a shallow embedding of the TypeScript
source.  The auth context (`AuthContext`) keeps an in-memory `user`, a
`isLoading` flag, and two browser cookies (`accessToken`, `refreshToken`);
the content page keeps a local analysis panel and an in-flight flag.
Network responses are modelled as explicit oracle values (reject, or resolve
with an application-level boolean status flag plus data), and each operation
returns the new state together with the number of network calls it issued
and whether a rejection propagates to the caller.
-/

namespace InsightWeave

/-- The role union of the `User` interface. -/
inductive Role where
  | reader
  | creator
  | admin
deriving DecidableEq, Repr

/-- The `User` identity record of the auth context. -/
structure User where
  uid : String
  name : String
  email : String
  role : Role
  profileImage : Option String
  bio : Option String
  isVerified : Bool
deriving DecidableEq, Repr

/-- A persisted cookie value: the string plus the expiry (in days) passed to
`Cookies.set`, when one was given. -/
structure CookieVal where
  value : String
  expiresDays : Option Nat
deriving DecidableEq, Repr

/-- The two cookies the auth code touches: `accessToken` and `refreshToken`.
`none` models an absent cookie (never set, or removed). -/
structure CookieJar where
  accessToken : Option CookieVal
  refreshToken : Option CookieVal
deriving DecidableEq, Repr

/-- The state owned by `AuthProvider`: the in-memory user, the loading flag,
and the persisted cookie jar it manipulates through `js-cookie`. -/
structure AuthState where
  user : Option User
  isLoading : Bool
  cookies : CookieJar
deriving DecidableEq, Repr

/-- Oracle for `GET /users/me`: the request either rejects (network error,
thrown exception, non-2xx) or resolves carrying `response.data.status` and
`response.data.data`. -/
inductive UsersMeResponse where
  | reject
  | resolve (status : Bool) (data : User)
deriving DecidableEq, Repr

/-- Oracle for `POST /auth/login`: reject, or resolve with the status flag
and `response.data.data = { accessToken, user }`. -/
inductive LoginResponse where
  | reject
  | resolve (status : Bool) (accessToken : String) (user : User)
deriving DecidableEq, Repr

/-- Oracle for `POST /auth/register`: reject, or resolve with the status
flag and `response.data.data` (a user record). -/
inductive RegisterResponse where
  | reject
  | resolve (status : Bool) (data : User)
deriving DecidableEq, Repr

/-- Oracle for the fire-and-forget `POST /auth/logout`: the promise may
reject, resolve, or never settle at all. -/
inductive LogoutNotification where
  | reject
  | resolve
  | pending
deriving DecidableEq, Repr

/-- Result of one auth operation: the state after it completes, how many
network requests it issued, and whether a rejection escapes to the caller. -/
structure OpResult where
  state : AuthState
  requests : Nat
  throws : Bool
deriving DecidableEq, Repr

/-- The `refreshUser` operation, from the source: if no `accessToken` cookie is present it
only clears the loading flag (the `finally`); otherwise it awaits
`GET /users/me` — on a resolve with truthy `status` it stores the returned
user, on a resolve with falsy `status` it does nothing, and on a rejection
the `catch` removes both cookies (without touching `user`).  The `finally`
clears the loading flag on every path, and no rejection escapes. -/
def refreshUser (s : AuthState) (resp : UsersMeResponse) : OpResult :=
  match s.cookies.accessToken with
  | none => ⟨⟨s.user, false, s.cookies⟩, 0, false⟩
  | some _ =>
    match resp with
    | .reject => ⟨⟨s.user, false, ⟨none, none⟩⟩, 1, false⟩
    | .resolve status data =>
      if status then ⟨⟨some data, false, s.cookies⟩, 1, false⟩
      else ⟨⟨s.user, false, s.cookies⟩, 1, false⟩

/-- The `login` operation, from the source: awaits `POST /auth/login` with no try/catch,
so a rejection propagates to the caller with the state untouched; on a
resolve with truthy `status` it sets the `accessToken` cookie with
`{ expires: 7 }` and replaces the user; on a falsy `status` it does
nothing and resolves. -/
def login (s : AuthState) (resp : LoginResponse) : OpResult :=
  match resp with
  | .reject => ⟨s, 1, true⟩
  | .resolve status accessToken userData =>
    if status then
      ⟨⟨some userData, s.isLoading, ⟨some ⟨accessToken, some 7⟩, s.cookies.refreshToken⟩⟩,
        1, false⟩
    else ⟨s, 1, false⟩

/-- The `register` operation, from the source: awaits `POST /auth/register` with no
try/catch; on a resolve with truthy `status` it sets the user from
`response.data.data` and writes no cookie; otherwise it either rejects
(propagating) or resolves doing nothing. -/
def registerOp (s : AuthState) (resp : RegisterResponse) : OpResult :=
  match resp with
  | .reject => ⟨s, 1, true⟩
  | .resolve status data =>
    if status then ⟨⟨some data, s.isLoading, s.cookies⟩, 1, false⟩
    else ⟨s, 1, false⟩

/-- The `logout` operation, from the source: synchronously removes both cookies and sets
the user to `null`, then fires `POST /auth/logout` with a `.catch` that
discards any failure — so the outcome never depends on the notification. -/
def logout (s : AuthState) (notif : LogoutNotification) : OpResult :=
  match notif with
  | _ => ⟨⟨none, s.isLoading, ⟨none, none⟩⟩, 1, false⟩

/-- One step of the auth state machine: an operation together with the
oracle value its request receives. -/
inductive AuthOp where
  | refresh (resp : UsersMeResponse)
  | doLogin (resp : LoginResponse)
  | doRegister (resp : RegisterResponse)
  | doLogout (notif : LogoutNotification)
deriving DecidableEq, Repr

/-- Apply one auth operation to the state, dropping the call counts. -/
def stepAuth (s : AuthState) (op : AuthOp) : AuthState :=
  match op with
  | .refresh resp => (refreshUser s resp).state
  | .doLogin resp => (login s resp).state
  | .doRegister resp => (registerOp s resp).state
  | .doLogout notif => (logout s notif).state

/-- Run a sequence of auth operations from a state. -/
def runAuth (s : AuthState) : List AuthOp → AuthState
  | [] => s
  | op :: ops => runAuth (stepAuth s op) ops

/-- State of the provider at mount: initial in-memory state: `user = null`,
`isLoading = true`; the cookie jar is whatever the browser already holds. -/
def initialAuth (c : CookieJar) : AuthState := ⟨none, true, c⟩

/-! ## The content-creation page -/

/-- The AI analysis record `response.data.data` of `POST /content/analyze`. -/
structure Analysis where
  wordCount : Nat
  readingTime : Nat
  suggestedCategory : String
  autoTags : List String
deriving DecidableEq, Repr

/-- Oracle for `POST /content/analyze`. -/
inductive AnalyzeResponse where
  | reject
  | resolve (status : Bool) (data : Analysis)
deriving DecidableEq, Repr

/-- The page-local state `analyzeContent` touches: the analysis panel
(`aiAnalysis`, `null` until populated), the in-flight flag `isAnalyzing`,
and the watched `body` field of the form.  The empty string models the
falsy values of the watched body field (`undefined` or `""`). -/
structure AnalyzePageState where
  aiAnalysis : Option Analysis
  isAnalyzing : Bool
  watchedBody : String
deriving DecidableEq, Repr

/-- Result of one press of the AI-analysis button: the page state after the
handler (if any) has completed, and the number of `/content/analyze`
requests issued. -/
structure AnalyzeResult where
  state : AnalyzePageState
  requests : Nat
deriving DecidableEq, Repr

/-- The `analyzeContent` handler body, from the source: an early return when
`!watchedBody || watchedBody.length < 10`; otherwise it sets the in-flight
flag, awaits one `POST /content/analyze`, stores `response.data.data` in the
panel when the status flag is truthy, swallows a rejection (logging only),
and the `finally` clears the in-flight flag. -/
def analyzeContent (s : AnalyzePageState) (resp : AnalyzeResponse) : AnalyzeResult :=
  if s.watchedBody = "" ∨ s.watchedBody.length < 10 then ⟨s, 0⟩
  else
    match resp with
    | .reject => ⟨⟨s.aiAnalysis, false, s.watchedBody⟩, 1⟩
    | .resolve status data =>
      if status then ⟨⟨some data, false, s.watchedBody⟩, 1⟩
      else ⟨⟨s.aiAnalysis, false, s.watchedBody⟩, 1⟩

/-- The `disabled` guard on the AI-analysis button, from the markup:
`disabled={isAnalyzing || !watchedBody}`. -/
def analyzeButtonDisabled (s : AnalyzePageState) : Bool :=
  s.isAnalyzing || s.watchedBody == ""

/-- One user press of the AI-analysis button: a disabled button swallows the
click; an enabled one runs `analyzeContent`. -/
def clickAnalyze (s : AnalyzePageState) (resp : AnalyzeResponse) : AnalyzeResult :=
  if analyzeButtonDisabled s then ⟨s, 0⟩ else analyzeContent s resp

/-- Status union of the content form. -/
inductive ContentStatus where
  | draft
  | published
deriving DecidableEq, Repr

/-- The serialized form of a status, as `formData.append` stringifies it. -/
def ContentStatus.str : ContentStatus → String
  | .draft => "draft"
  | .published => "published"

/-- The `CreateContentFormData` record held by the form: title, body, the
status (defaulting to `draft`), optional tags, optional featured image
(modelled by its file name). -/
structure CreateContentFormData where
  title : String
  body : String
  status : ContentStatus
  tags : Option (List String)
  featuredImage : Option String
deriving DecidableEq, Repr

/-- Effect of calling setValue with the status key on the form data. -/
def setStatus (d : CreateContentFormData) (st : ContentStatus) : CreateContentFormData :=
  ⟨d.title, d.body, st, d.tags, d.featuredImage⟩

/-- The indexed `tags[i]` entries appended by the mutation, in order. -/
def tagEntries : Nat → List String → List (String × String)
  | _, [] => []
  | i, t :: ts => ("tags[" ++ toString i ++ "]", t) :: tagEntries (i + 1) ts

/-- The multipart payload built by the mutationFn of `createContentMutation`,
from the source: `title`, `body`, `status`, then one `tags[i]` entry per
tag when tags are present, then `featuredImage` when a file was chosen. -/
def mutationPayload (d : CreateContentFormData) : List (String × String) :=
  [("title", d.title), ("body", d.body), ("status", d.status.str)]
    ++ (match d.tags with
        | none => []
        | some ts => tagEntries 0 ts)
    ++ (match d.featuredImage with
        | none => []
        | some f => [("featuredImage", f)])

/-- A submit triggered by the "Publish" button: its `onClick` runs
setValue with status published before the shared submit handler builds
the payload from the form data. -/
def submitViaPublish (d : CreateContentFormData) : List (String × String) :=
  mutationPayload (setStatus d .published)

/-- A submit triggered by the "Save as Draft" button: its `onClick` runs
setValue with status draft before the shared submit handler builds the
payload from the form data. -/
def submitViaDraft (d : CreateContentFormData) : List (String × String) :=
  mutationPayload (setStatus d .draft)

/-! ## Concrete fixtures used by witnesses and counterexamples -/

/-- A sample user record. -/
def adaUser : User := ⟨"u1", "Ada", "ada@example.com", Role.reader, none, none, true⟩

/-- A second sample user record. -/
def beaUser : User := ⟨"u2", "Bea", "bea@example.com", Role.creator, none, none, false⟩

/-- A sample AI-analysis record. -/
def sampleAnalysis : Analysis := ⟨120, 3, "technology", ["ai", "tools"]⟩

/-! ## Theorems for the claims -/

/-- Claim C5 (confirmed): for every call to login whose request succeeds
with a truthy status flag, the returned access token is persisted in the
accessToken cookie with a 7-day expiry and the user is replaced with the
returned record. -/
theorem login_success_persists_token (s : AuthState) (tok : String) (u : User) :
    (login s (LoginResponse.resolve true tok u)).state.cookies.accessToken
        = some ⟨tok, some 7⟩ ∧
    (login s (LoginResponse.resolve true tok u)).state.user = some u ∧
    (login s (LoginResponse.resolve true tok u)).throws = false :=
  ⟨rfl, rfl, rfl⟩

/-- Claim C6 (confirmed): for every call to login whose underlying request
rejects, the rejection propagates uncaught to the caller and the session
state is unchanged — the user keeps its prior value and no cookie is
written. -/
theorem login_reject_propagates (s : AuthState) :
    (login s LoginResponse.reject).throws = true ∧
    (login s LoginResponse.reject).state = s :=
  ⟨rfl, rfl⟩

/-- Claim C10 (confirmed): a login request that resolves with a falsy
status flag resolves without rejection, persists no token and leaves the
user unchanged — the whole state is untouched. -/
theorem login_nonsuccess_silent (s : AuthState) (tok : String) (u : User) :
    login s (LoginResponse.resolve false tok u) = ⟨s, 1, false⟩ :=
  rfl

/-- Claim C7 (confirmed): every call to logout removes both cookies and
sets the user to absent, from any current state, and no rejection reaches
the caller; the result is independent of the notification outcome (reject,
resolve, or never settling). -/
theorem logout_clears_session (s : AuthState) (o o₂ : LogoutNotification) :
    (logout s o).state.user = none ∧
    (logout s o).state.cookies.accessToken = none ∧
    (logout s o).state.cookies.refreshToken = none ∧
    (logout s o).throws = false ∧
    logout s o = logout s o₂ :=
  ⟨rfl, rfl, rfl, rfl, rfl⟩

/-- Claim C8 (confirmed): for every call to register whose request succeeds
with a truthy status flag, the user is set from the response body while
both persisted token cookies are left unchanged, and no rejection
escapes. -/
theorem register_success_sets_user_only (s : AuthState) (u : User) :
    (registerOp s (RegisterResponse.resolve true u)).state.user = some u ∧
    (registerOp s (RegisterResponse.resolve true u)).state.cookies = s.cookies ∧
    (registerOp s (RegisterResponse.resolve true u)).throws = false :=
  ⟨rfl, rfl, rfl⟩

/-- Claim C4 (confirmed): a submit triggered by the Save-as-Draft control
carries status draft in the multipart payload, and one triggered by the
Publish control carries status published, because each click sets the
target status before the shared submit handler builds the payload. -/
theorem submit_status_from_button (d : CreateContentFormData) :
    (submitViaDraft d).lookup "status" = some "draft" ∧
    (submitViaPublish d).lookup "status" = some "published" :=
  ⟨rfl, rfl⟩

/-- Claim C1 is false as stated: with a persisted access token and a
current-user response that resolves with a non-success status flag — one of
the failures the claim enumerates — the request completes, yet the
accessToken cookie is still present afterwards, not removed. -/
theorem refreshUser_nonsuccess_keeps_cookies_cex :
    (refreshUser ⟨none, true, ⟨some ⟨"tk1", some 7⟩, some ⟨"rk1", none⟩⟩⟩
        (UsersMeResponse.resolve false adaUser)).requests = 1 ∧
    (refreshUser ⟨none, true, ⟨some ⟨"tk1", some 7⟩, some ⟨"rk1", none⟩⟩⟩
        (UsersMeResponse.resolve false adaUser)).state.cookies.accessToken ≠ none := by
  decide

/-- Claim C1 (amended): for every execution of refreshUser with a persisted
access token whose request fails, no rejection reaches the caller, loading
is false on completion, and the user is left unchanged (hence absent at
mount); both cookies are removed exactly when the request rejected or
threw, while a resolved response with a non-success status flag leaves
both cookies in place. -/
theorem refreshUser_failure_amended (s : AuthState) (resp : UsersMeResponse)
    (htok : s.cookies.accessToken.isSome = true)
    (hfail : resp = UsersMeResponse.reject
      ∨ ∃ u, resp = UsersMeResponse.resolve false u) :
    (refreshUser s resp).throws = false ∧
    (refreshUser s resp).state.isLoading = false ∧
    (refreshUser s resp).state.user = s.user ∧
    (refreshUser s resp).state.cookies =
      (if resp = UsersMeResponse.reject then (⟨none, none⟩ : CookieJar)
       else s.cookies) := by
  obtain ⟨v, hv⟩ := Option.isSome_iff_exists.mp htok
  rcases hfail with h | ⟨u, h⟩ <;> subst h <;> simp [refreshUser, hv]

/-- Witness for the amended claim C1, at a state holding a token and a
rejecting request. -/
theorem refreshUser_failure_amended_witness :
    (refreshUser ⟨some adaUser, true, ⟨some ⟨"tk2", some 7⟩, some ⟨"rk2", none⟩⟩⟩
        UsersMeResponse.reject).throws = false ∧
    (refreshUser ⟨some adaUser, true, ⟨some ⟨"tk2", some 7⟩, some ⟨"rk2", none⟩⟩⟩
        UsersMeResponse.reject).state.isLoading = false ∧
    (refreshUser ⟨some adaUser, true, ⟨some ⟨"tk2", some 7⟩, some ⟨"rk2", none⟩⟩⟩
        UsersMeResponse.reject).state.user
      = (⟨some adaUser, true, ⟨some ⟨"tk2", some 7⟩, some ⟨"rk2", none⟩⟩⟩ : AuthState).user ∧
    (refreshUser ⟨some adaUser, true, ⟨some ⟨"tk2", some 7⟩, some ⟨"rk2", none⟩⟩⟩
        UsersMeResponse.reject).state.cookies =
      (if UsersMeResponse.reject = UsersMeResponse.reject then (⟨none, none⟩ : CookieJar)
       else (⟨some ⟨"tk2", some 7⟩, some ⟨"rk2", none⟩⟩ : CookieJar)) :=
  refreshUser_failure_amended
    ⟨some adaUser, true, ⟨some ⟨"tk2", some 7⟩, some ⟨"rk2", none⟩⟩⟩
    UsersMeResponse.reject rfl (Or.inl rfl)

/-- Claim C2 is false as stated: from a mount with both cookies absent, a
single successful register leaves the in-memory user present while the
accessToken cookie is still absent. -/
theorem token_user_invariant_cex :
    (runAuth (initialAuth ⟨none, none⟩)
        [AuthOp.doRegister (RegisterResponse.resolve true adaUser)]).cookies.accessToken
      = none ∧
    (runAuth (initialAuth ⟨none, none⟩)
        [AuthOp.doRegister (RegisterResponse.resolve true adaUser)]).user ≠ none := by
  decide

/-- Decides whether an auth operation is outside the two transitions that
break the token/user link: a register that succeeds (it sets the user
without persisting a token) and a refreshUser whose request rejects (its
catch removes the cookies without clearing the user). -/
def keepsTokenUserLink : AuthOp → Bool
  | .refresh .reject => false
  | .doRegister (.resolve true _) => false
  | _ => true

/-- One step of the auth machine preserves the token/user link, provided
the step is not a successful register or a rejecting refresh. -/
theorem keepsTokenUserLink_step (s : AuthState) (op : AuthOp)
    (hb : keepsTokenUserLink op = true)
    (h : s.cookies.accessToken = none → s.user = none) :
    (stepAuth s op).cookies.accessToken = none → (stepAuth s op).user = none := by
  cases op with
  | refresh resp =>
    cases resp with
    | reject => simp [keepsTokenUserLink] at hb
    | resolve st d =>
      cases hv : s.cookies.accessToken with
      | none =>
        intro _
        simpa [stepAuth, refreshUser, hv] using h hv
      | some v =>
        cases st <;> simp [stepAuth, refreshUser, hv]
  | doLogin resp =>
    cases resp with
    | reject => simpa [stepAuth, login] using h
    | resolve st tok u =>
      cases st with
      | false => simpa [stepAuth, login] using h
      | true => simp [stepAuth, login]
  | doRegister resp =>
    cases resp with
    | reject => simpa [stepAuth, registerOp] using h
    | resolve st d =>
      cases st with
      | false => simpa [stepAuth, registerOp] using h
      | true => simp [keepsTokenUserLink] at hb
  | doLogout notif => simp [stepAuth, logout]

/-- Running any sequence of link-preserving operations keeps the token/user
link from any state that satisfies it. -/
theorem runAuth_keepsTokenUserLink (ops : List AuthOp) :
    ∀ s : AuthState, (∀ op ∈ ops, keepsTokenUserLink op = true) →
      (s.cookies.accessToken = none → s.user = none) →
      ((runAuth s ops).cookies.accessToken = none → (runAuth s ops).user = none) := by
  induction ops with
  | nil => intro s _ h; simpa [runAuth] using h
  | cons op ops ih =>
    intro s hops h
    simp only [runAuth]
    exact ih (stepAuth s op)
      (fun o ho => hops o (List.mem_cons_of_mem _ ho))
      (keepsTokenUserLink_step s op (hops op (List.mem_cons_self _ _)) h)

/-- Claim C2 (amended): in every state reachable from mount by a sequence
of auth operations among which no register succeeds and no refreshUser
request rejects, absence of the accessToken cookie forces the in-memory
user to be absent. -/
theorem token_user_invariant_amended (c : CookieJar) (ops : List AuthOp)
    (hops : ∀ op ∈ ops, keepsTokenUserLink op = true)
    (hnone : (runAuth (initialAuth c) ops).cookies.accessToken = none) :
    (runAuth (initialAuth c) ops).user = none :=
  runAuth_keepsTokenUserLink ops (initialAuth c) hops (fun _ => rfl) hnone

/-- Witness for the amended claim C2: a successful login followed by a
logout ends with the user absent. -/
theorem token_user_invariant_amended_witness :
    (runAuth (initialAuth ⟨none, none⟩)
        [AuthOp.doLogin (LoginResponse.resolve true "tkw" beaUser),
         AuthOp.doLogout LogoutNotification.pending]).user = none :=
  token_user_invariant_amended ⟨none, none⟩
    [AuthOp.doLogin (LoginResponse.resolve true "tkw" beaUser),
     AuthOp.doLogout LogoutNotification.pending]
    (by decide) (by decide)

/-- Claim C9 is false as stated: after a successful register the access
token is absent but the user is present, and a refreshUser execution from
that state leaves the user present, not absent. -/
theorem refreshUser_no_token_user_cex :
    (runAuth (initialAuth ⟨none, none⟩)
        [AuthOp.doRegister (RegisterResponse.resolve true beaUser)]).cookies.accessToken
      = none ∧
    (refreshUser
        (runAuth (initialAuth ⟨none, none⟩)
          [AuthOp.doRegister (RegisterResponse.resolve true beaUser)])
        UsersMeResponse.reject).state.user ≠ none := by
  decide

/-- Claim C9 (amended): for every execution of refreshUser in which no
access token is persisted, it sets loading to false, leaves the user
unchanged (hence absent at mount, where the user starts absent), performs
zero network calls, and completes without error. -/
theorem refreshUser_no_token_amended (s : AuthState) (resp : UsersMeResponse)
    (h : s.cookies.accessToken = none) :
    refreshUser s resp = ⟨⟨s.user, false, s.cookies⟩, 0, false⟩ := by
  simp [refreshUser, h]

/-- Witness for the amended claim C9, at a mount state with only a refresh
token persisted. -/
theorem refreshUser_no_token_amended_witness :
    refreshUser (initialAuth ⟨none, some ⟨"rk9", none⟩⟩) UsersMeResponse.reject =
      ⟨⟨none, false, ⟨none, some ⟨"rk9", none⟩⟩⟩, 0, false⟩ :=
  refreshUser_no_token_amended (initialAuth ⟨none, some ⟨"rk9", none⟩⟩)
    UsersMeResponse.reject rfl

/-- Claim C3 is false as stated: with a 12-character body and no analysis
in flight, a button press whose request resolves with a falsy status flag
issues exactly one request yet leaves the analysis panel unpopulated. -/
theorem analyze_panel_cex :
    (clickAnalyze ⟨none, false, "abcdefghijkl"⟩
        (AnalyzeResponse.resolve false sampleAnalysis)).requests = 1 ∧
    (clickAnalyze ⟨none, false, "abcdefghijkl"⟩
        (AnalyzeResponse.resolve false sampleAnalysis)).state.aiAnalysis = none := by
  decide

/-- Claim C3 (amended): a press of the AI-analysis button is a no-op (no
request, no state change) whenever the body is shorter than 10 characters
or an analysis is already in flight; when the body has at least 10
characters and none is in flight it issues exactly one request, clears the
in-flight flag on completion, and populates the panel from the response
exactly when it resolves with a truthy status flag — on a falsy flag or a
rejection the panel is left unchanged. -/
theorem analyze_guard_amended (s : AnalyzePageState) (resp : AnalyzeResponse) :
    ((s.isAnalyzing = true ∨ s.watchedBody.length < 10) →
        clickAnalyze s resp = ⟨s, 0⟩) ∧
    (s.isAnalyzing = false → 10 ≤ s.watchedBody.length →
        (clickAnalyze s resp).requests = 1 ∧
        (clickAnalyze s resp).state =
          ⟨match resp with
            | AnalyzeResponse.resolve true d => some d
            | _ => s.aiAnalysis,
           false, s.watchedBody⟩) := by
  constructor
  · rintro (ha | hlen)
    · simp [clickAnalyze, analyzeButtonDisabled, ha]
    · cases hA : s.isAnalyzing with
      | true => simp [clickAnalyze, analyzeButtonDisabled, hA]
      | false =>
        by_cases hb : s.watchedBody = ""
        · simp [clickAnalyze, analyzeButtonDisabled, hb]
        · simp [clickAnalyze, analyzeButtonDisabled, analyzeContent, hA, hb, hlen]
  · intro ha hlen
    have hb : ¬s.watchedBody = "" := by
      intro he
      rw [he] at hlen
      simp at hlen
    have hguard : ¬(s.watchedBody = "" ∨ s.watchedBody.length < 10) := by
      push_neg
      exact ⟨hb, hlen⟩
    cases resp with
    | reject =>
      simp [clickAnalyze, analyzeButtonDisabled, analyzeContent, ha, hb, hguard,
        Nat.not_lt.mpr hlen]
    | resolve st d =>
      cases st <;>
        simp [clickAnalyze, analyzeButtonDisabled, analyzeContent, ha, hb, hguard,
          Nat.not_lt.mpr hlen]

/-- Witness for the amended claim C3: a short body is a no-op, and a
12-character body with a successful response issues one request and fills
the panel. -/
theorem analyze_guard_amended_witness :
    clickAnalyze ⟨none, false, "short"⟩ (AnalyzeResponse.resolve true sampleAnalysis)
      = ⟨⟨none, false, "short"⟩, 0⟩ ∧
    ((clickAnalyze ⟨none, false, "abcdefghijkl"⟩
        (AnalyzeResponse.resolve true sampleAnalysis)).requests = 1 ∧
      (clickAnalyze ⟨none, false, "abcdefghijkl"⟩
          (AnalyzeResponse.resolve true sampleAnalysis)).state =
        ⟨match AnalyzeResponse.resolve true sampleAnalysis with
          | AnalyzeResponse.resolve true d => some d
          | _ => none,
         false, "abcdefghijkl"⟩) :=
  ⟨(analyze_guard_amended ⟨none, false, "short"⟩
      (AnalyzeResponse.resolve true sampleAnalysis)).1 (Or.inr (by decide)),
   (analyze_guard_amended ⟨none, false, "abcdefghijkl"⟩
      (AnalyzeResponse.resolve true sampleAnalysis)).2 rfl (by decide)⟩

end InsightWeave
